import Mathlib

/-!
Verification of the job-orchestration and progress-streaming core of the
deep-research-agent repository.

The development shallowly embeds the relevant source functions:

* `src/lib/tools/deep-research.ts` — `executeDeepResearch` (submit / poll /
  retry loop) and `deepResearchTool.execute` (section-status event emission),
  modelled as pure functions over an explicit environment describing the
  external service's behaviour on each attempt (`AttemptEnv`).
* `src/lib/utils/streaming-helpers.ts` — the event constructors
  (`createRunStatus`, `createSectionStatus`, ...) and `formatAsDataPart`.
* `src/lib/types/streaming-events.ts` — the event types and `createPartId`
  (source quoted verbatim in `PROJECT_SUMMARY.md`).
* the stream-completion handlers (`onFinish`) of `src/routes/api/chat/+server.ts`
  and of the chat page component.

JavaScript truthiness on optional strings (`if (x)`, `x || y`) is modelled
explicitly by `jsTruthy` / `jsOr`: `undefined` and `""` are falsy.
Wall-clock reads (`Date.now()`, `new Date().toISOString()`) are modelled as
explicit parameters.
-/

namespace DeepResearch

/-- JS truthiness of an optional string: `undefined` and `""` are falsy. -/
def jsTruthy : Option String → Bool
  | some s => s ≠ ""
  | none => false

/-- JS `x || y` on an optional string `x` with string default `y`. -/
def jsOr (x : Option String) (y : String) : String :=
  match x with
  | some s => if s ≠ "" then s else y
  | none => y

/-! ## Remote response shape (Responses API poll/submit payload)

`deep-research.ts` reads the following fields of the JSON payloads returned
by `POST /v1/responses` and `GET /v1/responses/{id}`:
`id`, `status`, `error?.message`, `output_text`, `output` (array of items
with `type`, `content` (array of parts with `type`, `text`)), `usage`. -/

/-- One element of a message item's `content` array. -/
structure ContentPart where
  type : String
  text : Option String
  deriving DecidableEq, Repr

/-- One element of the response's `output` array. -/
structure OutputItem where
  type : String
  content : Option (List ContentPart)
  deriving DecidableEq, Repr

/-- The `usage` object of a terminal response. -/
structure Usage where
  input_tokens : Option Nat
  output_tokens : Option Nat
  total_tokens : Option Nat
  deriving DecidableEq, Repr

/-- The JSON payload of a submit or poll response, restricted to the fields
the code reads. -/
structure PollData where
  id : String
  status : String
  errorMessage : Option String
  output_text : Option String
  output : Option (List OutputItem)
  usage : Option Usage
  deriving DecidableEq, Repr

/-! ## Content extraction (deep-research.ts lines 179–205) -/

/-- Whether a content part matches the extraction filter
`contentItem.type === 'output_text' || contentItem.type === 'text'`. -/
def isMatchType (p : ContentPart) : Bool :=
  p.type == "output_text" || p.type == "text"

/-- The inner `for (const contentItem of item.content)` loop: the `text` of
the first matching part, if some part matches (`none` = no part matched and
`content` is left unchanged; `some t` = `content = contentItem.text` then
`break`, where `t` itself may be `none` when the part has no `text`). -/
def firstMatch : List ContentPart → Option (Option String)
  | [] => none
  | p :: rest => if isMatchType p then some p.text else firstMatch rest

/-- The outer `for (const item of pollData.output)` loop, carrying the
mutable `content` variable: for each item of type `"message"` with a present
`content` array, `content` is overwritten by the first matching part's text,
and the loop breaks as soon as `content` is truthy. -/
def scanOutput : List OutputItem → Option String → Option String
  | [], c => c
  | item :: rest, c =>
    if item.type == "message" then
      match item.content with
      | some parts =>
        match firstMatch parts with
        | some t => if jsTruthy t then t else scanOutput rest t
        | none => scanOutput rest c
      | none => scanOutput rest c
    else scanOutput rest c

/-- Steps 179–205 of `executeDeepResearch`: try `output_text` first, then
scan the `output` array; `none` means the `if (!content)` guard fires and
`'No content returned from OpenAI deep research'` is thrown. -/
def extractContent (pd : PollData) : Option String :=
  let c : Option String :=
    if jsTruthy pd.output_text then pd.output_text
    else
      match pd.output with
      | some items => scanOutput items none
      | none => none
  if jsTruthy c then c else none

/-! ## One attempt: submit, poll loop, completion handling -/

/-- Outcome of one `fetch` call as observed by the code: the promise rejects
(transport error), the response is non-2xx (`!response.ok`), or it is OK with
a JSON payload. -/
inductive FetchResult where
  | transportError (msg : String)
  | httpError (status : Nat) (errorData : String)
  | ok (data : PollData)
  deriving DecidableEq, Repr

/-- The external service's behaviour during one submit-through-terminal
attempt: the submit call's outcome, and for each poll-loop iteration the
elapsed milliseconds observed at the top of the loop paired with the
outcome the poll `fetch` would produce. -/
structure AttemptEnv where
  submit : FetchResult
  polls : List (Nat × FetchResult)
  deriving Repr

/-- `MAX_POLL_TIME_MS` (deep-research.ts line 40). -/
def MAX_POLL_TIME_MS : Nat := 600000

/-- The message thrown on poll-deadline expiry (line 131). -/
def timedOutMsg : String :=
  "Deep research timed out after 600 seconds"

/-- The message thrown when extraction finds no content (line 204). -/
def noContentMsg : String :=
  "No content returned from OpenAI deep research"

/-- The `while (queued || in_progress)` loop guard (line 127). -/
def isRunning (status : String) : Bool :=
  status == "queued" || status == "in_progress"

/-- Result of the poll loop: it exits with a terminal payload, throws an
error, or the modelled trace is exhausted while the remote still reports a
running status (the real loop would keep polling). -/
inductive PollLoopResult where
  | terminal (pd : PollData)
  | err (msg : String)
  | fuelOut
  deriving DecidableEq, Repr

/-- The poll loop (lines 127–169): while the status is running, check the
deadline *before* issuing the poll call, then fetch; transport and non-2xx
poll errors are thrown. -/
def pollLoop (pd : PollData) : List (Nat × FetchResult) → PollLoopResult
  | [] => if isRunning pd.status then .fuelOut else .terminal pd
  | (elapsed, fr) :: rest =>
    if ¬ isRunning pd.status then .terminal pd
    else if elapsed > MAX_POLL_TIME_MS then .err timedOutMsg
    else
      match fr with
      | .transportError m => .err m
      | .httpError st ed =>
        .err ("OpenAI poll error (" ++ toString st ++ "): " ++ ed)
      | .ok pd2 => pollLoop pd2 rest

/-- The value returned by `executeDeepResearch` (interface
`DeepResearchResult`, lines 15–25). -/
structure DeepResearchResult where
  id : String
  content : String
  status : String
  error : Option String
  tokenUsage : Option Usage
  deriving DecidableEq, Repr

/-- Outcome of the `try` block of one attempt: a successful return value, a
thrown error (caught at line 246), or a poll loop that outruns the modelled
trace. -/
inductive AttemptOutcome where
  | success (r : DeepResearchResult)
  | thrown (msg : String)
  | diverged
  deriving DecidableEq, Repr

/-- One iteration of the retry loop's `try` block (lines 56–245): submit,
poll to a non-running status, throw on remote-reported `failed`/`cancelled`
(cause `pollData.error?.message || 'Research <status>'`), otherwise extract
content or throw `noContentMsg`. -/
def runAttempt (env : AttemptEnv) : AttemptOutcome :=
  match env.submit with
  | .transportError m => .thrown m
  | .httpError st ed =>
    .thrown ("OpenAI API error (" ++ toString st ++ "): " ++ ed)
  | .ok submitData =>
    match pollLoop submitData env.polls with
    | .fuelOut => .diverged
    | .err m => .thrown m
    | .terminal pd =>
      if pd.status == "failed" || pd.status == "cancelled" then
        .thrown (jsOr pd.errorMessage ("Research " ++ pd.status))
      else
        match extractContent pd with
        | some c =>
          .success
            { id := submitData.id, content := c, status := "completed",
              error := none, tokenUsage := pd.usage }
        | none => .thrown noContentMsg

/-! ## The retry loop (lines 42–283) -/

/-- `Math.pow(2, attempt - 1) * 1000` (line 45): the backoff wait in
milliseconds before retry attempt `attempt`. -/
def backoffMs (attempt : Nat) : Nat :=
  2 ^ (attempt - 1) * 1000

/-- Result of `executeDeepResearch`: either it returns a value, or the poll
loop of some attempt outruns the modelled trace (divergence, which cannot
happen on a trace with an advancing clock because of the deadline check). -/
inductive ExecResult where
  | returns (r : DeepResearchResult)
  | diverges
  deriving DecidableEq, Repr

/-- The fallthrough result after the `for` loop (lines 277–282); reached
only when `maxRetries = 0`. -/
def allRetriesFailedResult : DeepResearchResult :=
  { id := "failed", content := "", status := "failed",
    error := some "All retry attempts failed", tokenUsage := none }

/-- The terminal result built in the `catch` block on the last attempt
(lines 266–273): `(error as Error).message || 'Unknown error occurred'`. -/
def lastAttemptFailedResult (m : String) : DeepResearchResult :=
  { id := "failed", content := "", status := "failed",
    error := some (if m ≠ "" then m else "Unknown error occurred"),
    tokenUsage := none }

/-- The `for (let attempt = 1; attempt <= maxRetries; attempt++)` loop,
indexed by the number of remaining iterations: with `k + 1` iterations
remaining the current attempt number is `maxRetries - k`. A caught error
retries unless the attempt is the last one. -/
def execAux (envOf : Nat → AttemptEnv) (maxRetries : Nat) : Nat → ExecResult
  | 0 => .returns allRetriesFailedResult
  | Nat.succ k =>
    match runAttempt (envOf (maxRetries - k)) with
    | .success r => .returns r
    | .diverged => .diverges
    | .thrown m =>
      if k = 0 then .returns (lastAttemptFailedResult m)
      else execAux envOf maxRetries k

/-- `executeDeepResearch(query, toolId, maxRetries)` as a function of the
external service's behaviour on each attempt number (1-based). The query
and tool id only influence logging and the request body, not control flow. -/
def executeDeepResearch (envOf : Nat → AttemptEnv) (maxRetries : Nat) :
    ExecResult :=
  execAux envOf maxRetries maxRetries

/-- Number of attempts actually started by the retry loop. -/
def attemptsAux (envOf : Nat → AttemptEnv) (maxRetries : Nat) : Nat → Nat
  | 0 => 0
  | Nat.succ k =>
    match runAttempt (envOf (maxRetries - k)) with
    | .success _ => 1
    | .diverged => 1
    | .thrown _ => if k = 0 then 1 else 1 + attemptsAux envOf maxRetries k

/-- Number of attempts `executeDeepResearch` performs. -/
def attemptsUsed (envOf : Nat → AttemptEnv) (maxRetries : Nat) : Nat :=
  attemptsAux envOf maxRetries maxRetries

/-! ## Progress event model (`streaming-events.ts`, quoted in
`PROJECT_SUMMARY.md`, and `streaming-helpers.ts`) -/

/-- `RunStatusPart`. -/
structure RunStatusPart where
  runId : String
  phase : String
  phaseMessage : String
  completedSections : Nat
  totalSections : Nat
  timestamp : String
  deriving DecidableEq, Repr

/-- One section of an outline. -/
structure OutlineSection where
  id : String
  title : String
  description : String
  deriving DecidableEq, Repr

/-- `OutlinePart`. -/
structure OutlinePart where
  runId : String
  topic : String
  sections : List OutlineSection
  timestamp : String
  deriving DecidableEq, Repr

/-- The optional `progress` object of a `SectionStatusPart`. -/
structure SectionProgress where
  sourcesFound : Option Nat
  keyFindings : Option (List String)
  preview : Option String
  deriving DecidableEq, Repr

/-- `SectionStatusPart`. -/
structure SectionStatusPart where
  runId : String
  sectionId : String
  sectionTitle : String
  status : String
  progress : Option SectionProgress
  error : Option String
  timestamp : String
  deriving DecidableEq, Repr

/-- `HeartbeatPart`. -/
structure HeartbeatPart where
  runId : String
  message : String
  secondsSinceLastUpdate : Nat
  timestamp : String
  deriving DecidableEq, Repr

/-- `StreamingEvent`: the discriminated union of the four variants (the
`type` tag of each interface is the constructor). -/
inductive StreamingEvent where
  | runStatus (r : RunStatusPart)
  | outline (o : OutlinePart)
  | sectionStatus (s : SectionStatusPart)
  | heartbeat (h : HeartbeatPart)
  deriving DecidableEq, Repr

/-- `createPartId` (streaming-events.ts, quoted at PROJECT_SUMMARY.md
lines 466–479): the stable reconciliation identity of an event. -/
def createPartId : StreamingEvent → String
  | .runStatus r => "run:" ++ r.runId
  | .outline o => "outline:" ++ o.runId
  | .sectionStatus s => "section:" ++ s.runId ++ ":" ++ s.sectionId
  | .heartbeat h => "heartbeat:" ++ h.runId

/-- `createRunStatus` (streaming-helpers.ts); `new Date().toISOString()` is
the explicit `now` parameter. -/
def createRunStatus (runId phase phaseMessage : String)
    (completedSections : Nat) (totalSections : Nat) (now : String) :
    RunStatusPart :=
  { runId := runId, phase := phase, phaseMessage := phaseMessage,
    completedSections := completedSections, totalSections := totalSections,
    timestamp := now }

/-- `createSectionStatus` (streaming-helpers.ts). -/
def createSectionStatus (runId sectionId sectionTitle status : String)
    (progress : Option SectionProgress) (error : Option String)
    (now : String) : SectionStatusPart :=
  { runId := runId, sectionId := sectionId, sectionTitle := sectionTitle,
    status := status, progress := progress, error := error,
    timestamp := now }

/-- `formatAsDataPart` (streaming-helpers.ts lines 99–111): the data part
handed to the AI SDK, keyed by `createPartId`. -/
structure DataPart where
  type : String
  id : String
  data : StreamingEvent
  deriving DecidableEq, Repr

/-- `formatAsDataPart`. -/
def formatAsDataPart (event : StreamingEvent) : DataPart :=
  { type := "data", id := createPartId event, data := event }

/-! ## Stream-completion handlers (`onFinish`) -/

/-- The `onFinish` handler of the chat page component: if a run status is
being tracked, mark it complete and set `completedSections` to
`totalSections`, unconditionally. -/
def onFinishClient (runStatus : Option RunStatusPart) : Option RunStatusPart :=
  match runStatus with
  | none => none
  | some r =>
    some { r with phase := "complete", phaseMessage := "Research complete!",
                  completedSections := r.totalSections }

/-- The `onFinish` handler of `src/routes/api/chat/+server.ts` (lines
113–133): the final run status built when the stream completes,
unconditionally `createRunStatus(runId, 'complete', 'Research complete', 5, 5)`. -/
def onFinishServer (runId : String) (now : String) : RunStatusPart :=
  createRunStatus runId "complete" "Research complete" 5 5 now

/-! ## `deepResearchTool.execute` (deep-research.ts lines 295–427) -/

/-- Outcome of one `execute` call: the returned object's `success` and
`error` fields, or a thrown error. -/
inductive ExecuteOutcome where
  | returned (success : Bool) (error : Option String)
  | threw (msg : String)
  deriving DecidableEq, Repr

/-- The section-status events emitted over the tool call's lifetime paired
with its outcome. -/
structure ToolExecOutput where
  events : List SectionStatusPart
  outcome : ExecuteOutcome
  deriving DecidableEq, Repr

/-- `result.content.substring(0, 200) + '...'` (lines 397, 414, 425). -/
def contentPreview (content : String) : String :=
  content.take 200 ++ "..."

/-- `deepResearchTool.execute`, as a function of: the tool parameters, the
wall clock, whether `setOpenAIApiKey` has been called, and the
`DeepResearchResult` that `executeDeepResearch` returns. Emits the
`running` status, then either throws on a missing API key, or emits the
`error` status and returns `success: false` on a failed result, or emits
the `done` status and returns `success: true`. File persistence and PDF
generation are out-of-scope collaborators; PDF failure is swallowed
(lines 380–388) so it does not affect events or the outcome. -/
def toolExecute (subtopic : String) (sectionNumber : Nat)
    (sectionId runId : Option String) (apiKeySet : Bool)
    (research : DeepResearchResult) (now : String) : ToolExecOutput :=
  let effectiveSectionId :=
    jsOr sectionId ("section-" ++ toString sectionNumber)
  let effectiveRunId := jsOr runId "unknown"
  let runningStatus :=
    createSectionStatus effectiveRunId effectiveSectionId subtopic
      "running" none none now
  if ¬ apiKeySet then
    ⟨[runningStatus],
      .threw "OPENAI_API_KEY is not set. Call setOpenAIApiKey first."⟩
  else if research.status == "failed" then
    let errorStatus :=
      createSectionStatus effectiveRunId effectiveSectionId subtopic
        "error" none research.error now
    ⟨[runningStatus, errorStatus], .returned false research.error⟩
  else
    let doneStatus :=
      createSectionStatus effectiveRunId effectiveSectionId subtopic
        "done" (some ⟨none, none, some (contentPreview research.content)⟩)
        none now
    ⟨[runningStatus, doneStatus], .returned true none⟩

/-! ## The submit request (deep-research.ts lines 62–82) -/

/-- The system prompt prepended to every query (line 36). -/
def systemPrompt : String :=
  "You are a deep research assistant. Provide comprehensive, well-researched answers with citations and sources where applicable."

/-- One content part of an input turn of the request body. -/
structure RequestContentPart where
  type : String
  text : String
  deriving DecidableEq, Repr

/-- One element of the request body's `input` array. -/
structure InputTurn where
  role : String
  content : List RequestContentPart
  deriving DecidableEq, Repr

/-- One element of the request body's `tools` array. -/
structure ToolSpec where
  type : String
  deriving DecidableEq, Repr

/-- The request body's `reasoning` object. -/
structure ReasoningSpec where
  summary : String
  deriving DecidableEq, Repr

/-- The submit request: method, URL, headers and JSON body fields as
assembled by the `fetch` call at lines 62–82. -/
structure SubmitRequest where
  method : String
  url : String
  contentType : String
  authorization : String
  model : String
  input : List InputTurn
  reasoning : ReasoningSpec
  tools : List ToolSpec
  background : Bool
  deriving DecidableEq, Repr

/-- The submit request built for a query with the configured API key. -/
def buildSubmitRequest (apiKey query : String) : SubmitRequest :=
  { method := "POST"
  , url := "https://api.openai.com/v1/responses"
  , contentType := "application/json"
  , authorization := "Bearer " ++ apiKey
  , model := "o4-mini-deep-research-2025-06-26"
  , input := [⟨"user", [⟨"input_text", systemPrompt ++ "\n\n" ++ query⟩]⟩]
  , reasoning := ⟨"auto"⟩
  , tools := [⟨"web_search_preview"⟩]
  , background := true }

/-! ## Extraction-scan predicates -/

/-- An output item that the extraction scan passes over without finding any
matching content part: either it is not a message item, or its `content`
array is absent, or no part in it has type `output_text` or `text`. -/
def itemHasNoMatch (it : OutputItem) : Bool :=
  if it.type == "message" then
    match it.content with
    | some ps => ps.all fun p => !(isMatchType p)
    | none => true
  else true

/-- An output item none of whose matching content parts carries a truthy
`text` (so scanning it can never produce content). -/
def itemMatchesFalsy (it : OutputItem) : Bool :=
  if it.type == "message" then
    match it.content with
    | some ps => ps.all fun p => !(isMatchType p) || !(jsTruthy p.text)
    | none => true
  else true

/-! ## Concrete payloads and environments used by counterexamples and
witnesses -/

/-- A poll payload whose remote-reported status is the terminal `failed`,
with error message `"boom"`. -/
def remoteFailedData : PollData :=
  ⟨"resp-1", "failed", some "boom", none, none, none⟩

/-- A poll payload that completes immediately with `output_text`. -/
def successData : PollData :=
  ⟨"resp-2", "completed", none, some "all good", none, none⟩

/-- A submit payload still `queued`, so the poll loop runs. -/
def queuedData : PollData :=
  ⟨"resp-3", "queued", none, none, none, none⟩

/-- Environment in which attempt 1 is answered by a remote-reported
terminal `failed` and every later attempt succeeds immediately. -/
def envOfC1 : Nat → AttemptEnv
  | 1 => ⟨.ok remoteFailedData, []⟩
  | _ => ⟨.ok successData, []⟩

/-- Environment in which attempt 1 exceeds the local poll deadline (the
service would still report `in_progress`) and every later attempt succeeds
immediately. -/
def envOfC1t : Nat → AttemptEnv
  | 1 => ⟨.ok queuedData,
          [(600001, .ok ⟨"resp-3", "in_progress", none, none, none, none⟩)]⟩
  | _ => ⟨.ok successData, []⟩

/-- An external client whose every submit call fails with the same
transport error. -/
def envAllTransport : Nat → AttemptEnv :=
  fun _ => ⟨.transportError "network down", []⟩

/-- A completed payload with `output_text` set. -/
def pdWithOutputText : PollData :=
  ⟨"i1", "completed", none, some "primary", none, none⟩

/-- A completed payload lacking `output_text` whose `output` array holds a
non-message item followed by a message item whose content has a
non-matching part before an `output_text` part. -/
def pdFallback : PollData :=
  ⟨"i2", "completed", none, none,
    some [⟨"reasoning", none⟩,
          ⟨"message", some [⟨"refusal", some "no"⟩,
                            ⟨"output_text", some "fallback"⟩]⟩],
    none⟩

/-- A completed payload with neither `output_text` nor any text-bearing
matching part in its `output` array. -/
def pdNoText : PollData :=
  ⟨"i3", "completed", none, none,
    some [⟨"message", some [⟨"reasoning", some "rzn"⟩]⟩], none⟩

/-! ## Helper lemmas -/

theorem string_data_append (x y : String) : (x ++ y).data = x.data ++ y.data :=
  rfl

theorem string_append_left_cancel {a s₁ s₂ : String} (h : a ++ s₁ = a ++ s₂) :
    s₁ = s₂ := by
  have hd := congrArg String.data h
  rw [string_data_append, string_data_append] at hd
  exact String.ext (List.append_cancel_left hd)

/-- Unfolding step of the retry loop: with `k + 1` iterations remaining the
loop runs attempt `maxRetries - k` and inspects its outcome. -/
theorem execAux_succ (envOf : Nat → AttemptEnv) (maxRetries k : Nat) :
    execAux envOf maxRetries (k + 1) =
      match runAttempt (envOf (maxRetries - k)) with
      | .success r => .returns r
      | .diverged => .diverges
      | .thrown m =>
        if k = 0 then .returns (lastAttemptFailedResult m)
        else execAux envOf maxRetries k :=
  rfl

/-- Unfolding step of the attempt counter. -/
theorem attemptsAux_succ (envOf : Nat → AttemptEnv) (maxRetries k : Nat) :
    attemptsAux envOf maxRetries (k + 1) =
      match runAttempt (envOf (maxRetries - k)) with
      | .success _ => 1
      | .diverged => 1
      | .thrown _ =>
        if k = 0 then 1 else 1 + attemptsAux envOf maxRetries k :=
  rfl

/-- Retry-loop step when the attempt succeeds. -/
theorem execAux_succ_success (envOf : Nat → AttemptEnv) (maxRetries k : Nat)
    (r : DeepResearchResult)
    (h : runAttempt (envOf (maxRetries - k)) = .success r) :
    execAux envOf maxRetries (k + 1) = .returns r := by
  rw [execAux_succ, h]

/-- Retry-loop step when the attempt throws: retry, unless it was the last
attempt, in which case convert to the terminal failed result. -/
theorem execAux_succ_thrown (envOf : Nat → AttemptEnv) (maxRetries k : Nat)
    (m : String) (h : runAttempt (envOf (maxRetries - k)) = .thrown m) :
    execAux envOf maxRetries (k + 1) =
      if k = 0 then .returns (lastAttemptFailedResult m)
      else execAux envOf maxRetries k := by
  rw [execAux_succ, h]

/-- Attempt-counter step when the attempt throws. -/
theorem attemptsAux_succ_thrown (envOf : Nat → AttemptEnv)
    (maxRetries k : Nat) (m : String)
    (h : runAttempt (envOf (maxRetries - k)) = .thrown m) :
    attemptsAux envOf maxRetries (k + 1) =
      if k = 0 then 1 else 1 + attemptsAux envOf maxRetries k := by
  rw [attemptsAux_succ, h]

/-- With an external client whose submit call always fails with a transport
error, every remaining iteration of the retry loop throws and retries, and
the loop finally returns the last attempt's error message. -/
theorem execAux_all_transport (envOf : Nat → AttemptEnv) (m : Nat → String)
    (h : ∀ a, (envOf a).submit = .transportError (m a)) (maxRetries : Nat) :
    ∀ k, execAux envOf maxRetries (k + 1) =
        .returns (lastAttemptFailedResult (m maxRetries)) ∧
      attemptsAux envOf maxRetries (k + 1) = k + 1 := by
  intro k
  induction k with
  | zero =>
    have hr : runAttempt (envOf (maxRetries - 0)) =
        .thrown (m (maxRetries - 0)) := by
      unfold runAttempt
      rw [h (maxRetries - 0)]
    constructor
    · rw [execAux_succ_thrown envOf maxRetries 0 _ hr, if_pos rfl,
        Nat.sub_zero]
    · rw [attemptsAux_succ_thrown envOf maxRetries 0 _ hr, if_pos rfl]
  | succ k ih =>
    have hr : runAttempt (envOf (maxRetries - (k + 1))) =
        .thrown (m (maxRetries - (k + 1))) := by
      unfold runAttempt
      rw [h (maxRetries - (k + 1))]
    constructor
    · rw [execAux_succ_thrown envOf maxRetries (k + 1) _ hr,
        if_neg (Nat.succ_ne_zero k)]
      exact ih.1
    · rw [attemptsAux_succ_thrown envOf maxRetries (k + 1) _ hr,
        if_neg (Nat.succ_ne_zero k), ih.2]
      omega

/-! ## Theorems for the claims -/

/-- C1 counterexample: retries are NOT restricted to transport-level
failures. The `catch` at deep-research.ts line 246 catches every error
thrown in the attempt — including the remote-reported terminal
`failed`/`cancelled` throw (line 176) and the poll-deadline throw
(line 131) — and retries unless the attempt was the last. Concretely: with
retry ceiling 2, an attempt 1 answered by a remote-reported `failed`
(resp. by a passed poll deadline) is followed by a second attempt, and the
job ends `completed` with the second attempt's content instead of ending in
its terminal failure state. -/
theorem retry_after_terminal_counterexample :
    (envOfC1 1).submit = .ok remoteFailedData ∧
    remoteFailedData.status = "failed" ∧
    runAttempt (envOfC1 1) = .thrown "boom" ∧
    executeDeepResearch envOfC1 2 =
      .returns ⟨"resp-2", "all good", "completed", none, none⟩ ∧
    attemptsUsed envOfC1 2 = 2 ∧
    runAttempt (envOfC1t 1) = .thrown timedOutMsg ∧
    executeDeepResearch envOfC1t 2 =
      .returns ⟨"resp-2", "all good", "completed", none, none⟩ ∧
    attemptsUsed envOfC1t 2 = 2 := by
  decide

/-- C1 amended: every error thrown during a submit-through-terminal attempt
— transport error, non-2xx response, remote-reported terminal
`failed`/`cancelled`, local poll-deadline expiry, or missing content —
triggers a further attempt when the attempt is not the last; only on the
last attempt does the job end in the terminal failed state, carrying that
error's message. -/
theorem error_retry_policy (envOf : Nat → AttemptEnv) (maxRetries a : Nat)
    (m : String) (_h₁ : 1 ≤ a) (h₂ : a ≤ maxRetries)
    (h : runAttempt (envOf a) = .thrown m) :
    (a < maxRetries →
      execAux envOf maxRetries (maxRetries - a + 1) =
        execAux envOf maxRetries (maxRetries - a)) ∧
    (a = maxRetries →
      execAux envOf maxRetries (maxRetries - a + 1) =
        .returns (lastAttemptFailedResult m)) := by
  have hsub : maxRetries - (maxRetries - a) = a := Nat.sub_sub_self h₂
  constructor
  · intro hlt
    rw [execAux_succ, hsub, h]
    have hne : maxRetries - a ≠ 0 := by omega
    simp only [hne, if_false]
  · intro heq
    rw [execAux_succ, hsub, h]
    have hz : maxRetries - a = 0 := by omega
    simp only [hz, if_true]

/-- Witness for `error_retry_policy`: in `envOfC1`, attempt 1 of 2 throws
the remote-reported failure message and the loop goes on to attempt 2. -/
theorem error_retry_policy_witness :
    ((1:Nat) ≤ 1 ∧ (1:Nat) ≤ 2 ∧ runAttempt (envOfC1 1) = .thrown "boom") ∧
    ((1 < 2 →
        execAux envOfC1 2 (2 - 1 + 1) = execAux envOfC1 2 (2 - 1)) ∧
     ((1:Nat) = 2 →
        execAux envOfC1 2 (2 - 1 + 1) =
          .returns (lastAttemptFailedResult "boom"))) :=
  ⟨⟨by decide, by decide, by decide⟩,
    error_retry_policy envOfC1 2 1 "boom" (by decide) (by decide)
      (by decide)⟩

/-- C2: with retry ceiling 3 and an external client that fails every
submit interaction with a transport error, exactly 3 attempts are started
and the job ends in the terminal failed result whose error is the last
observed error's message. -/
theorem retry_ceiling_three (envOf : Nat → AttemptEnv) (m : Nat → String)
    (h : ∀ a, (envOf a).submit = .transportError (m a)) (hm : m 3 ≠ "") :
    attemptsUsed envOf 3 = 3 ∧
    executeDeepResearch envOf 3 =
      .returns ⟨"failed", "", "failed", some (m 3), none⟩ := by
  have main := execAux_all_transport envOf m h 3 2
  constructor
  · exact main.2
  · have he : executeDeepResearch envOf 3 =
        .returns (lastAttemptFailedResult (m 3)) := main.1
    rw [he]
    unfold lastAttemptFailedResult
    rw [if_pos hm]

/-- Witness for `retry_ceiling_three` on the concrete all-transport-error
client. -/
theorem retry_ceiling_three_witness :
    (∀ a, (envAllTransport a).submit = .transportError "network down") ∧
    ("network down" ≠ "") ∧
    (attemptsUsed envAllTransport 3 = 3 ∧
     executeDeepResearch envAllTransport 3 =
       .returns ⟨"failed", "", "failed", some "network down", none⟩) :=
  ⟨fun _ => rfl, by decide,
    retry_ceiling_three envAllTransport (fun _ => "network down")
      (fun _ => rfl) (by decide)⟩

/-- The retry loop always returns a value (no error escapes it), and when
no attempt it runs succeeds the value is the terminal failed result with a
non-empty error message; divergence is excluded by hypothesis (it would
require the modelled poll trace to run out while the remote still reports
running, which cannot happen under an advancing clock because of the
deadline check). -/
theorem execAux_total (envOf : Nat → AttemptEnv) (maxRetries : Nat)
    (hnd : ∀ a, runAttempt (envOf a) ≠ .diverged) :
    ∀ k, ∃ r, execAux envOf maxRetries k = .returns r ∧
      ((∀ j, j < k →
          ∀ res, runAttempt (envOf (maxRetries - j)) ≠ .success res) →
        r.status = "failed" ∧ ∃ e, r.error = some e ∧ e ≠ "") := by
  intro k
  induction k with
  | zero =>
    exact ⟨allRetriesFailedResult, rfl,
      fun _ => ⟨rfl, "All retry attempts failed", rfl, by decide⟩⟩
  | succ k ih =>
    cases hcase : runAttempt (envOf (maxRetries - k)) with
    | success r =>
      refine ⟨r, execAux_succ_success envOf maxRetries k r hcase,
        fun hno => ?_⟩
      exact absurd hcase (hno k (Nat.lt_succ_self k) r)
    | diverged => exact absurd hcase (hnd (maxRetries - k))
    | thrown msg =>
      by_cases hk : k = 0
      · subst hk
        refine ⟨lastAttemptFailedResult msg,
          by rw [execAux_succ_thrown envOf maxRetries 0 msg hcase,
            if_pos rfl], fun _ => ⟨rfl, ?_⟩⟩
        unfold lastAttemptFailedResult
        by_cases hmsg : msg = ""
        · subst hmsg
          exact ⟨"Unknown error occurred", by simp, by decide⟩
        · exact ⟨msg, by simp [hmsg], hmsg⟩
      · obtain ⟨r, hr, hprop⟩ := ih
        refine ⟨r, ?_, fun hno => hprop fun j hj res =>
          hno j (Nat.lt_succ_of_lt hj) res⟩
        rw [execAux_succ_thrown envOf maxRetries k msg hcase, if_neg hk]
        exact hr

/-- C10: `executeDeepResearch` is total at its interface — for every retry
ceiling ≥ 1 and every behaviour of the external service (any mix of
transport errors, non-2xx responses, remote-reported failures, deadline
expiries and missing content, all of which surface as caught `thrown`
outcomes), it returns a `DeepResearchResult` instead of throwing; and when
no attempt in `1..maxRetries` succeeds, the returned result has status
`failed` and a non-empty error message. The no-divergence hypothesis
excludes only modelled traces whose clock never passes the poll deadline. -/
theorem interface_totality (envOf : Nat → AttemptEnv) (maxRetries : Nat)
    (_hmr : 1 ≤ maxRetries)
    (hnd : ∀ a, runAttempt (envOf a) ≠ .diverged) :
    ∃ r, executeDeepResearch envOf maxRetries = .returns r ∧
      ((∀ a, 1 ≤ a → a ≤ maxRetries →
          ∀ res, runAttempt (envOf a) ≠ .success res) →
        r.status = "failed" ∧ ∃ e, r.error = some e ∧ e ≠ "") := by
  obtain ⟨r, hr, hprop⟩ := execAux_total envOf maxRetries hnd maxRetries
  refine ⟨r, hr, fun hno => hprop ?_⟩
  intro j hj res
  exact hno (maxRetries - j) (by omega) (by omega) res

/-- Witness for `interface_totality` on the concrete all-transport-error
client with ceiling 2. -/
theorem interface_totality_witness :
    ∃ r, executeDeepResearch envAllTransport 2 = .returns r ∧
      ((∀ a, 1 ≤ a → a ≤ 2 →
          ∀ res, runAttempt (envAllTransport a) ≠ .success res) →
        r.status = "failed" ∧ ∃ e, r.error = some e ∧ e ≠ "") :=
  interface_totality envAllTransport 2 (by decide)
    (fun a h => by simp [runAttempt, envAllTransport] at h)


/-- C8: for every positive attempt number `n`, the backoff delay computed at
deep-research.ts line 45 equals `base * 2^(n-1)` with base = 1 second, i.e.
`1000 * 2^(n-1)` milliseconds. `backoffMs` is a total Lean function on all
naturals and is pure by construction; the retry ceiling appears nowhere in
it — it is enforced by the surrounding `for` loop (`execAux`), not here. -/
theorem backoff_delay_exponential (n : Nat) (_h : 1 ≤ n) :
    backoffMs n = 1000 * 2 ^ (n - 1) := by
  unfold backoffMs
  exact Nat.mul_comm _ _

/-- Witness for `backoff_delay_exponential` at `n = 3`. -/
theorem backoff_delay_exponential_witness :
    1 ≤ 3 ∧ backoffMs 3 = 1000 * 2 ^ (3 - 1) :=
  ⟨by decide, backoff_delay_exponential 3 (by decide)⟩

/-- C9: every submit request is a POST to the `/responses` endpoint whose
body carries the model identifier, an `input` array with one user turn whose
content parts hold the combined instruction-plus-query text, a `reasoning`
object `{summary: "auto"}`, a `tools` array enabling web search, and
`background: true`; authorization is a bearer token header. -/
theorem submit_request_shape (apiKey query : String) :
    (buildSubmitRequest apiKey query).method = "POST" ∧
    (buildSubmitRequest apiKey query).url =
      "https://api.openai.com/v1/responses" ∧
    (buildSubmitRequest apiKey query).contentType = "application/json" ∧
    (buildSubmitRequest apiKey query).authorization = "Bearer " ++ apiKey ∧
    (buildSubmitRequest apiKey query).model =
      "o4-mini-deep-research-2025-06-26" ∧
    (buildSubmitRequest apiKey query).input =
      [⟨"user", [⟨"input_text", systemPrompt ++ "\n\n" ++ query⟩]⟩] ∧
    (buildSubmitRequest apiKey query).reasoning = ⟨"auto"⟩ ∧
    (buildSubmitRequest apiKey query).tools = [⟨"web_search_preview"⟩] ∧
    (buildSubmitRequest apiKey query).background = true :=
  ⟨rfl, rfl, rfl, rfl, rfl, rfl, rfl, rfl, rfl⟩

/-- C5: a poll-loop iteration whose observed elapsed time exceeds the
10-minute deadline throws the timeout error regardless of what the next
poll fetch would have returned (`fr` is universally quantified, so the
outcome is independent of any network interaction — in particular even if
the service would report `in_progress`) and regardless of the rest of the
trace. The deadline check at lines 129–132 precedes the fetch at line 139. -/
theorem timeout_precedence (pd : PollData) (elapsed : Nat) (fr : FetchResult)
    (rest : List (Nat × FetchResult)) (hrun : isRunning pd.status = true)
    (hdl : elapsed > MAX_POLL_TIME_MS) :
    pollLoop pd ((elapsed, fr) :: rest) = .err timedOutMsg := by
  unfold pollLoop
  simp [hrun, hdl]

/-- Witness for `timeout_precedence`: a job 600001 ms past its poll start,
where the service would still report `in_progress`. -/
theorem timeout_precedence_witness :
    isRunning "in_progress" = true ∧ 600001 > MAX_POLL_TIME_MS ∧
    pollLoop ⟨"r1", "in_progress", none, none, none, none⟩
      [(600001,
        .ok ⟨"r1", "in_progress", none, none, none, none⟩)] = .err timedOutMsg :=
  ⟨by decide, by decide,
    timeout_precedence ⟨"r1", "in_progress", none, none, none, none⟩ 600001
      (.ok ⟨"r1", "in_progress", none, none, none, none⟩) [] (by decide)
      (by decide)⟩

/-- C6: when the research result is a terminal failure (and the job actually
ran, which requires the API key to be set), `deepResearchTool.execute` emits
exactly the `running` event followed by a `SectionStatus` event with status
`error` — no failure path of a run job skips it — and returns
`{success: false, error}` instead of throwing. -/
theorem failure_emits_error_event (subtopic : String) (sectionNumber : Nat)
    (sectionId runId : Option String) (research : DeepResearchResult)
    (now : String) (hfail : research.status = "failed") :
    (toolExecute subtopic sectionNumber sectionId runId true research
        now).events =
      [createSectionStatus (jsOr runId "unknown")
        (jsOr sectionId ("section-" ++ toString sectionNumber)) subtopic
        "running" none none now,
       createSectionStatus (jsOr runId "unknown")
        (jsOr sectionId ("section-" ++ toString sectionNumber)) subtopic
        "error" none research.error now] ∧
    (toolExecute subtopic sectionNumber sectionId runId true research
        now).outcome = .returned false research.error := by
  unfold toolExecute
  simp [hfail]

/-- Witness for `failure_emits_error_event` on a concrete failed result. -/
theorem failure_emits_error_event_witness :
    (DeepResearchResult.status
        ⟨"failed", "", "failed", some "boom", none⟩ = "failed") ∧
    ((toolExecute "s" 2 none none true
        ⟨"failed", "", "failed", some "boom", none⟩ "t").events =
      [createSectionStatus "unknown" "section-2" "s" "running" none none "t",
       createSectionStatus "unknown" "section-2" "s" "error" none
        (some "boom") "t"] ∧
     (toolExecute "s" 2 none none true
        ⟨"failed", "", "failed", some "boom", none⟩ "t").outcome =
      .returned false (some "boom")) :=
  ⟨by decide,
    failure_emits_error_event "s" 2 none none
      ⟨"failed", "", "failed", some "boom", none⟩ "t" (by decide)⟩

theorem firstMatch_eq_none {ps : List ContentPart}
    (h : ∀ p ∈ ps, isMatchType p = false) : firstMatch ps = none := by
  induction ps with
  | nil => rfl
  | cons p rest ih =>
    unfold firstMatch
    rw [h p (List.mem_cons_self p rest)]
    exact ih fun q hq => h q (List.mem_cons_of_mem p hq)

theorem firstMatch_found {ppre : List ContentPart} {p : ContentPart}
    (ppost : List ContentPart) (h : ∀ q ∈ ppre, isMatchType q = false)
    (hp : isMatchType p = true) :
    firstMatch (ppre ++ p :: ppost) = some p.text := by
  induction ppre with
  | nil =>
    rw [List.nil_append]
    simp [firstMatch, hp]
  | cons q rest ih =>
    rw [List.cons_append]
    simp [firstMatch, h q (List.mem_cons_self q rest)]
    exact ih fun q' hq' => h q' (List.mem_cons_of_mem q hq')

theorem firstMatch_falsy {ps : List ContentPart}
    (h : ∀ p ∈ ps, isMatchType p = true → jsTruthy p.text = false) :
    ∀ t, firstMatch ps = some t → jsTruthy t = false := by
  induction ps with
  | nil => intro t ht; cases ht
  | cons p rest ih =>
    intro t ht
    unfold firstMatch at ht
    by_cases hp : isMatchType p = true
    · rw [if_pos hp] at ht
      cases ht
      exact h p (List.mem_cons_self p rest) hp
    · rw [if_neg hp] at ht
      exact ih (fun q hq => h q (List.mem_cons_of_mem p hq)) t ht

theorem scanOutput_skip {it : OutputItem} {rest : List OutputItem}
    {c : Option String} (h : itemHasNoMatch it = true) :
    scanOutput (it :: rest) c = scanOutput rest c := by
  unfold itemHasNoMatch at h
  by_cases hm : (it.type == "message") = true
  · rw [if_pos hm] at h
    cases hc : it.content with
    | none => simp [scanOutput, hm, hc]
    | some ps =>
      rw [hc] at h
      have hnone : firstMatch ps = none :=
        firstMatch_eq_none fun p hp => by
          simpa using List.all_eq_true.mp h p hp
      simp [scanOutput, hm, hc, hnone]
  · simp [scanOutput, hm]

theorem scanOutput_skipAll {pre : List OutputItem}
    (rest : List OutputItem) (c : Option String)
    (h : ∀ it ∈ pre, itemHasNoMatch it = true) :
    scanOutput (pre ++ rest) c = scanOutput rest c := by
  induction pre with
  | nil => rfl
  | cons it pre' ih =>
    rw [List.cons_append,
      scanOutput_skip (h it (List.mem_cons_self it pre'))]
    exact ih fun q hq => h q (List.mem_cons_of_mem it hq)

theorem scanOutput_falsy {items : List OutputItem}
    (h : ∀ it ∈ items, itemMatchesFalsy it = true) :
    ∀ c, jsTruthy c = false → jsTruthy (scanOutput items c) = false := by
  induction items with
  | nil => intro c hc; exact hc
  | cons it rest ih =>
    intro c hc
    have hit := h it (List.mem_cons_self it rest)
    have hrest := fun q hq => h q (List.mem_cons_of_mem it hq)
    by_cases hm : (it.type == "message") = true
    · cases hcont : it.content with
      | none =>
        rw [show scanOutput (it :: rest) c = scanOutput rest c by
          simp [scanOutput, hm, hcont]]
        exact ih hrest c hc
      | some ps =>
        unfold itemMatchesFalsy at hit
        rw [if_pos hm, hcont] at hit
        have hfalsy : ∀ p ∈ ps, isMatchType p = true →
            jsTruthy p.text = false := fun p hp hmt => by
          have := List.all_eq_true.mp hit p hp
          simp only [hmt, Bool.not_true, Bool.false_or,
            Bool.not_eq_true'] at this
          exact this
        cases hfm : firstMatch ps with
        | none =>
          rw [show scanOutput (it :: rest) c = scanOutput rest c by
            simp [scanOutput, hm, hcont, hfm]]
          exact ih hrest c hc
        | some t =>
          have ht : jsTruthy t = false := firstMatch_falsy hfalsy t hfm
          rw [show scanOutput (it :: rest) c = scanOutput rest t by
            simp [scanOutput, hm, hcont, hfm, ht]]
          exact ih hrest t ht
    · rw [show scanOutput (it :: rest) c = scanOutput rest c by
        simp [scanOutput, hm]]
      exact ih hrest c hc

/-- C7 (identity keys): `createPartId` depends only on the event's logical
subject — for each variant, two events with the same `runId` (and, for
section-status events, the same `sectionId`) get the same key no matter when
they were created or what else they carry; and under one `runId` two
section-status events with different `sectionId`s never share a key. -/
theorem part_id_stable_and_injective
    (r₁ r₂ : RunStatusPart) (o₁ o₂ : OutlinePart)
    (s₁ s₂ t₁ t₂ : SectionStatusPart) (h₁ h₂ : HeartbeatPart)
    (hr : r₁.runId = r₂.runId) (ho : o₁.runId = o₂.runId)
    (hs : s₁.runId = s₂.runId) (hss : s₁.sectionId = s₂.sectionId)
    (hh : h₁.runId = h₂.runId)
    (ht : t₁.runId = t₂.runId) (hts : t₁.sectionId ≠ t₂.sectionId) :
    createPartId (.runStatus r₁) = createPartId (.runStatus r₂) ∧
    createPartId (.outline o₁) = createPartId (.outline o₂) ∧
    createPartId (.sectionStatus s₁) = createPartId (.sectionStatus s₂) ∧
    createPartId (.heartbeat h₁) = createPartId (.heartbeat h₂) ∧
    createPartId (.sectionStatus t₁) ≠ createPartId (.sectionStatus t₂) := by
  refine ⟨by simp [createPartId, hr], by simp [createPartId, ho],
    by simp [createPartId, hs, hss], by simp [createPartId, hh], ?_⟩
  intro hkey
  apply hts
  simp only [createPartId] at hkey
  rw [ht] at hkey
  exact string_append_left_cancel hkey

/-- Witness for `part_id_stable_and_injective` on concrete events. -/
theorem part_id_stable_and_injective_witness :
    createPartId (.sectionStatus
        ⟨"r", "a", "T1", "running", none, none, "t1"⟩) =
      createPartId (.sectionStatus
        ⟨"r", "a", "T1", "done", none, none, "t2"⟩) ∧
    createPartId (.sectionStatus
        ⟨"r", "a", "T1", "running", none, none, "t1"⟩) ≠
      createPartId (.sectionStatus
        ⟨"r", "b", "T2", "running", none, none, "t1"⟩) := by
  have h := part_id_stable_and_injective
    ⟨"r", "p", "m", 0, 5, "t1"⟩ ⟨"r", "p", "m", 1, 5, "t2"⟩
    ⟨"r", "top", [], "t1"⟩ ⟨"r", "top", [], "t2"⟩
    ⟨"r", "a", "T1", "running", none, none, "t1"⟩
    ⟨"r", "a", "T1", "done", none, none, "t2"⟩
    ⟨"r", "a", "T1", "running", none, none, "t1"⟩
    ⟨"r", "b", "T2", "running", none, none, "t1"⟩
    ⟨"r", "hb", 1, "t1"⟩ ⟨"r", "hb", 2, "t2"⟩
    (by decide) (by decide) (by decide) (by decide) (by decide) (by decide)
    (by decide)
  exact ⟨h.2.2.1, h.2.2.2.2⟩

/-- C3 counterexample: the stream-completion handlers take no job outcomes
at all — in particular in a run where every job failed (client handler
tracking `completedSections = 0`, i.e. no successful section), the terminal
phase they produce is `complete`, never `error`, contradicting the claim
that an all-failed run ends with phase `error`. -/
theorem run_phase_counterexample :
    (onFinishServer "run-1" "t9").phase = "complete" ∧
    (onFinishServer "run-1" "t9").phase ≠ "error" ∧
    onFinishClient
        (some ⟨"run-1", "researching", "Deep research in progress...", 0, 5,
          "t0"⟩) =
      some ⟨"run-1", "complete", "Research complete!", 5, 5, "t0"⟩ := by
  refine ⟨rfl, by decide, rfl⟩

/-- C3 amended: when every section's job has reached a terminal state, the
run's terminal phase is `complete` regardless of the mix of successes and
failures — even when all jobs failed — and `completedSections` is set to
`totalSections` (the server handler hard-codes 5/5). No completion path
produces the `error` phase. -/
theorem run_phase_always_complete :
    (∀ runId now, (onFinishServer runId now).phase = "complete" ∧
      (onFinishServer runId now).completedSections = 5 ∧
      (onFinishServer runId now).totalSections = 5) ∧
    (∀ r : RunStatusPart, onFinishClient (some r) =
      some { r with phase := "complete",
                    phaseMessage := "Research complete!",
                    completedSections := r.totalSections }) ∧
    onFinishClient none = none :=
  ⟨fun _ _ => ⟨rfl, rfl, rfl⟩, fun _ => rfl, rfl⟩

/-- C4: content extraction from a terminal non-failed poll response.
(1) When the convenience field `output_text` is present (and truthy), the
produced content equals it. (2) Otherwise the content is the text of the
first `output_text`/`text` content part found scanning the `output` array's
message items in order (stated via an explicit decomposition: no earlier
message item has a matching part, and within the found item no earlier part
matches). (3) When neither source yields truthy text, extraction is empty,
and (4) in that case the attempt throws the "No content returned from
OpenAI deep research" error (the claim's cause "no content returned"),
while a successful extraction yields the `completed` result carrying the
extracted content and the response's usage metrics. -/
theorem extraction_fallback :
    (∀ (pd : PollData) (s : String), pd.output_text = some s → s ≠ "" →
      extractContent pd = some s) ∧
    (∀ (pd : PollData) (pre post : List OutputItem)
        (ppre ppost : List ContentPart) (item : OutputItem)
        (p : ContentPart) (t : String),
      jsTruthy pd.output_text = false →
      pd.output = some (pre ++ item :: post) →
      (∀ it ∈ pre, itemHasNoMatch it = true) →
      item.type = "message" →
      item.content = some (ppre ++ p :: ppost) →
      (∀ q ∈ ppre, isMatchType q = false) →
      isMatchType p = true → p.text = some t → t ≠ "" →
      extractContent pd = some t) ∧
    (∀ pd : PollData, jsTruthy pd.output_text = false →
      (∀ items, pd.output = some items →
        ∀ it ∈ items, itemMatchesFalsy it = true) →
      extractContent pd = none) ∧
    (∀ (env : AttemptEnv) (sd pd : PollData), env.submit = .ok sd →
      pollLoop sd env.polls = .terminal pd →
      (pd.status == "failed" || pd.status == "cancelled") = false →
      (∀ s, extractContent pd = some s →
        runAttempt env = .success ⟨sd.id, s, "completed", none, pd.usage⟩) ∧
      (extractContent pd = none → runAttempt env = .thrown noContentMsg)) := by
  refine ⟨?_, ?_, ?_, ?_⟩
  · intro pd s hs hne
    simp [extractContent, hs, jsTruthy, hne]
  · intro pd pre post ppre ppost item p t h1 houtput hpre hitem hcontent
      hppre hp hptext htne
    have hfm : firstMatch (ppre ++ p :: ppost) = some p.text :=
      firstMatch_found ppost hppre hp
    have htt : jsTruthy (some t) = true := by simp [jsTruthy, htne]
    have hscan : scanOutput (pre ++ item :: post) none = some t := by
      rw [scanOutput_skipAll _ _ hpre]
      simp [scanOutput, hitem, hcontent, hfm, hptext, htt]
    simp only [extractContent, h1, Bool.false_eq_true, if_false, houtput,
      hscan, htt, if_true]
  · intro pd h1 h2
    have hnone : jsTruthy none = false := rfl
    cases houtput : pd.output with
    | none =>
      simp only [extractContent, h1, Bool.false_eq_true, if_false, houtput,
        hnone]
    | some items =>
      have hsc := scanOutput_falsy (h2 items houtput) none rfl
      simp only [extractContent, h1, Bool.false_eq_true, if_false, houtput,
        hsc]
  · intro env sd pd hs hp hterm
    constructor
    · intro s hx
      simp [runAttempt, hs, hp, hterm, hx]
    · intro hx
      simp [runAttempt, hs, hp, hterm, hx]

/-- Witness for `extraction_fallback` on concrete payloads: the primary
field wins when present; the fallback scan finds the first text part across
message items; a text-free response extracts nothing and the attempt throws
the no-content error. -/
theorem extraction_fallback_witness :
    extractContent pdWithOutputText = some "primary" ∧
    extractContent pdFallback = some "fallback" ∧
    extractContent pdNoText = none ∧
    runAttempt ⟨.ok pdWithOutputText, []⟩ =
      .success ⟨"i1", "primary", "completed", none, none⟩ ∧
    runAttempt ⟨.ok pdNoText, []⟩ = .thrown noContentMsg := by
  refine ⟨?_, ?_, ?_, ?_, ?_⟩
  · exact extraction_fallback.1 pdWithOutputText "primary" (by decide)
      (by decide)
  · exact extraction_fallback.2.1 pdFallback [⟨"reasoning", none⟩] []
      [⟨"refusal", some "no"⟩] []
      ⟨"message", some [⟨"refusal", some "no"⟩,
                        ⟨"output_text", some "fallback"⟩]⟩
      ⟨"output_text", some "fallback"⟩ "fallback" (by decide) (by decide)
      (by decide) (by decide) (by decide) (by decide) (by decide)
      (by decide) (by decide)
  · refine extraction_fallback.2.2.1 pdNoText (by decide) ?_
    intro items hitems
    rw [show pdNoText.output =
      some [⟨"message", some [⟨"reasoning", some "rzn"⟩]⟩] from rfl] at hitems
    cases hitems
    decide
  · exact (extraction_fallback.2.2.2 ⟨.ok pdWithOutputText, []⟩
      pdWithOutputText pdWithOutputText rfl (by decide) (by decide)).1
      "primary" (by decide)
  · exact (extraction_fallback.2.2.2 ⟨.ok pdNoText, []⟩ pdNoText pdNoText
      rfl (by decide) (by decide)).2 (by decide)

end DeepResearch
